import Mathlib

/-!
Shallow embedding of the logger registry in
`src/openmdao/utils/logger_utils.py` (`_loggers`, `_set_handler`,
`get_logger`), together with theorems settling the specification claims
about it.

Modelling choices:
* The `out_stream` argument is `Option OutStream`: `none` is Python's
  falsy "no destination" (`None`), `some` a symbolic `'stdout'`/`'stderr'`
  or an arbitrary file-like object (`custom`).
* The module-level dict `_loggers` is a function `String → Option Info`;
  a Python dict keys entries uniquely, which the function type captures
  structurally.
* A `logging.Logger` is its identity key (`name`), its own severity
  threshold (`level`) and its attached handler list.  `logging.getLogger`
  hands out one object per name, so logger identity is the `name` field.
* Python truthiness of the stored `locked` value (which may be `None`,
  `True` or `False`) is `pyLockTruthy`.
* The handler-removal loop in `get_logger` iterates over the live
  `logger.handlers` list while `removeHandler` shrinks it, so it removes
  only the elements at even positions of the evolving list;
  `removeHandlersLoop` reproduces exactly that semantics (handlers are
  freshly constructed objects, hence pairwise distinct, so removal is
  positional).
* Levels are `Int`: the logging primitives accept any integer without
  validation.
-/

/-- Destination argument of `get_logger`/`_set_handler`: the symbolic
strings `'stdout'` and `'stderr'`, or an arbitrary file-like object. -/
inductive OutStream where
  | stdout
  | stderr
  | custom (id : Nat)
  deriving DecidableEq

/-- The stream a handler ends up writing to after `_set_handler` resolves
the symbolic names to `sys.stdout` / `sys.stderr`. -/
inductive SysStream where
  | sysStdout
  | sysStderr
  | customStream (id : Nat)
  deriving DecidableEq

/-- Resolution performed at the top of `_set_handler`:
`if stream is 'stdout': stream = sys.stdout elif stream is 'stderr': stream = sys.stderr`. -/
def resolveStream : OutStream → SysStream
  | OutStream.stdout => SysStream.sysStdout
  | OutStream.stderr => SysStream.sysStderr
  | OutStream.custom i => SysStream.customStream i

/-- A `logging.StreamHandler`: the stream it writes to, its level
(`handler.setLevel(level)`) and whether the openmdao formatter was set
(`use_format`). -/
structure Handler where
  stream : SysStream
  level : Int
  formatted : Bool
  deriving DecidableEq

/-- A `logging.Logger`: its name (the identity key of the object returned
by `logging.getLogger(name)`), its own severity threshold and its
attached handlers. A fresh logger has level `NOTSET = 0` and no
handlers. -/
structure Logger where
  name : String
  level : Int
  handlers : List Handler
  deriving DecidableEq

/-- `_set_handler(logger, stream, level, use_format)`: build a
`StreamHandler` on the resolved stream, optionally set the formatter,
set the handler level, and `logger.addHandler` it (append; the handler
is a fresh object so the membership guard in `addHandler` passes). -/
def _set_handler (logger : Logger) (stream : OutStream) (level : Int)
    (use_format : Bool) : Logger :=
  { logger with
      handlers := logger.handlers ++
        [{ stream := resolveStream stream, level := level, formatted := use_format }] }

/-- One value of the per-name dict stored in `_loggers`:
`{'logger': ..., 'stream': ..., 'locked': ...}`. -/
structure Info where
  logger : Logger
  stream : Option OutStream
  locked : Option Bool
  deriving DecidableEq

/-- The module-level registry `_loggers`. -/
def State := String → Option Info

/-- `_loggers = {}` at import time. -/
def emptyState : State := fun _ => none

/-- Python truthiness of the stored `locked` value (`None`, `True` or
`False`): only `True` is truthy. -/
def pyLockTruthy : Option Bool → Bool
  | some true => true
  | _ => false

/-- The loop `for handler in logger.handlers: logger.removeHandler(handler)`.
`removeHandler` deletes the handler from the very list being iterated, so
the loop index skips the element that slides into the freed slot: from a
list of distinct handlers it removes the elements at even positions of
the evolving list (all of a singleton, half of a longer list). -/
def removeHandlersLoop : List Handler → List Handler
  | [] => []
  | [_] => []
  | _ :: b :: rest => b :: removeHandlersLoop rest

/-- `get_logger(name, level, use_format, out_stream, lock)` from
`logger_utils.py`, as a function from the registry state to the new
state paired with the returned logger. Defaults at call sites are
`name = "default_logger"`, `level = 20` (`logging.INFO`),
`use_format = false`, `out_stream = some OutStream.stdout`,
`lock = none`. -/
def get_logger (name : String) (level : Int) (use_format : Bool)
    (out_stream : Option OutStream) (lock : Option Bool)
    (st : State) : State × Logger :=
  match st name with
  | some info =>
    -- use existing logger
    let logger := info.logger
    let stream := info.stream
    let locked := info.locked
    let unlock := lock = some false
    -- redirect log to new stream (if not locked)
    let result :=
      if out_stream ≠ stream ∧ (pyLockTruthy locked = false ∨ unlock) then
        let logger := { logger with handlers := removeHandlersLoop logger.handlers }
        let logger :=
          match out_stream with
          | some s => _set_handler logger s level use_format
          | none => logger
        (logger, out_stream)
      else
        (logger, stream)
    -- update locked status: info['locked'] = lock, unconditionally
    let newInfo : Info := { logger := result.1, stream := result.2, locked := lock }
    (fun n => if n = name then some newInfo else st n, result.1)
  | none =>
    -- create new logger
    let logger : Logger := { name := name, level := 0, handlers := [] }
    let logger :=
      match out_stream with
      | some s => _set_handler logger s level use_format
      | none => logger
    let logger := { logger with level := level }
    let newInfo : Info := { logger := logger, stream := out_stream, locked := lock }
    (fun n => if n = name then some newInfo else st n, logger)

/-- One call's argument tuple, for describing call sequences. -/
structure CallArgs where
  name : String
  level : Int
  use_format : Bool
  out_stream : Option OutStream
  lock : Option Bool

/-- The registry state after a finite sequence of `get_logger` calls
starting from the empty registry. -/
def runCalls (calls : List CallArgs) : State :=
  calls.foldl
    (fun st c => (get_logger c.name c.level c.use_format c.out_stream c.lock st).1)
    emptyState

/-! ### Helper lemmas: the four cases of `get_logger` -/

/-- A call on a missing name creates the entry: fresh logger named `name`,
a single handler when a destination is given (none otherwise), the
requested stream and lock stored. -/
lemma get_logger_new (st : State) (n : String) (lv : Int) (uf : Bool)
    (d : Option OutStream) (lk : Option Bool) (h : st n = none) :
    (get_logger n lv uf d lk st).1 n =
      some ⟨⟨n, lv,
             match d with
             | some s => [⟨resolveStream s, lv, uf⟩]
             | none => []⟩, d, lk⟩ ∧
    (get_logger n lv uf d lk st).2 =
      ⟨n, lv,
       match d with
       | some s => [⟨resolveStream s, lv, uf⟩]
       | none => []⟩ := by
  simp only [get_logger, h]
  cases d <;> simp [_set_handler]

/-- A call on an existing entry whose redirect condition fails leaves the
logger and stream untouched and overwrites only the lock flag. -/
lemma get_logger_existing_blocked (st : State) (n : String) (info : Info)
    (lv : Int) (uf : Bool) (d : Option OutStream) (lk : Option Bool)
    (h : st n = some info)
    (hc : ¬(d ≠ info.stream ∧ (pyLockTruthy info.locked = false ∨ lk = some false))) :
    (get_logger n lv uf d lk st).1 n = some ⟨info.logger, info.stream, lk⟩ ∧
    (get_logger n lv uf d lk st).2 = info.logger := by
  simp only [get_logger, h]
  rw [if_neg hc]
  simp

/-- A call on an existing entry whose redirect condition holds runs the
handler-removal loop, attaches a new handler when a destination is given,
and stores the requested stream and lock. -/
lemma get_logger_existing_changed (st : State) (n : String) (info : Info)
    (lv : Int) (uf : Bool) (d : Option OutStream) (lk : Option Bool)
    (h : st n = some info) (hd : d ≠ info.stream)
    (hulk : pyLockTruthy info.locked = false ∨ lk = some false) :
    (get_logger n lv uf d lk st).1 n =
      some ⟨{ info.logger with
                handlers := removeHandlersLoop info.logger.handlers ++
                  (match d with
                   | some s => [⟨resolveStream s, lv, uf⟩]
                   | none => []) }, d, lk⟩ ∧
    (get_logger n lv uf d lk st).2 =
      { info.logger with
          handlers := removeHandlersLoop info.logger.handlers ++
            (match d with
             | some s => [⟨resolveStream s, lv, uf⟩]
             | none => []) } := by
  have hc : d ≠ info.stream ∧ (pyLockTruthy info.locked = false ∨ lk = some false) :=
    ⟨hd, hulk⟩
  simp only [get_logger, h]
  rw [if_pos hc]
  cases d <;> simp [_set_handler]

/-- A call on name `n` never touches the entry of any other name. -/
lemma get_logger_frame (st : State) (n m : String) (hnm : m ≠ n)
    (lv : Int) (uf : Bool) (d : Option OutStream) (lk : Option Bool) :
    (get_logger n lv uf d lk st).1 m = st m := by
  unfold get_logger
  cases h : st n <;> simp [hnm]

/-- The logger returned by `get_logger` is exactly the logger stored in the
entry for `name` after the call. -/
lemma get_logger_returns_entry_logger (st : State) (n : String) (lv : Int)
    (uf : Bool) (d : Option OutStream) (lk : Option Bool) :
    ((get_logger n lv uf d lk st).1 n).map Info.logger =
      some (get_logger n lv uf d lk st).2 := by
  cases h : st n with
  | none =>
    obtain ⟨h1, h2⟩ := get_logger_new st n lv uf d lk h
    rw [h1, h2]
    rfl
  | some info =>
    by_cases hc : d ≠ info.stream ∧ (pyLockTruthy info.locked = false ∨ lk = some false)
    · obtain ⟨h1, h2⟩ := get_logger_existing_changed st n info lv uf d lk h hc.1 hc.2
      rw [h1, h2]
      rfl
    · obtain ⟨h1, h2⟩ := get_logger_existing_blocked st n info lv uf d lk h hc
      rw [h1, h2]
      rfl

/-- On a list holding at most one handler — the only shape reachable
through this module — the removal loop removes everything. -/
lemma removeHandlersLoop_eq_nil (hs : List Handler) (h : hs.length ≤ 1) :
    removeHandlersLoop hs = [] := by
  match hs with
  | [] => rfl
  | [_] => rfl
  | _ :: _ :: _ => simp at h

/-- Registry sanity: every entry's logger is the one `logging.getLogger`
hands out for its own key, and carries at most one handler. -/
def GoodState (st : State) : Prop :=
  ∀ n info, st n = some info → info.logger.name = n ∧ info.logger.handlers.length ≤ 1

lemma emptyState_good : GoodState emptyState := by
  intro n info h
  simp [emptyState] at h

/-- Every `get_logger` call preserves the registry sanity invariant. -/
lemma get_logger_preserves_good (n : String) (lv : Int) (uf : Bool)
    (d : Option OutStream) (lk : Option Bool) (st : State) (hg : GoodState st) :
    GoodState (get_logger n lv uf d lk st).1 := by
  intro m infom hm
  by_cases hmn : m = n
  · subst hmn
    cases h : st m with
    | none =>
      rw [(get_logger_new st m lv uf d lk h).1] at hm
      simp only [Option.some.injEq] at hm
      subst hm
      refine ⟨rfl, ?_⟩
      cases d <;> simp
    | some info =>
      obtain ⟨hname, hlen⟩ := hg m info h
      by_cases hc : d ≠ info.stream ∧ (pyLockTruthy info.locked = false ∨ lk = some false)
      · rw [(get_logger_existing_changed st m info lv uf d lk h hc.1 hc.2).1] at hm
        simp only [Option.some.injEq] at hm
        subst hm
        refine ⟨hname, ?_⟩
        rw [removeHandlersLoop_eq_nil info.logger.handlers hlen]
        cases d <;> simp
      · rw [(get_logger_existing_blocked st m info lv uf d lk h hc).1] at hm
        simp only [Option.some.injEq] at hm
        subst hm
        exact ⟨hname, hlen⟩
  · rw [get_logger_frame st n m hmn lv uf d lk] at hm
    exact hg m infom hm

lemma runCalls_aux_good (calls : List CallArgs) (st : State) (hg : GoodState st) :
    GoodState (calls.foldl
      (fun st c => (get_logger c.name c.level c.use_format c.out_stream c.lock st).1) st) := by
  induction calls generalizing st with
  | nil => exact hg
  | cons c cs ih => exact ih _ (get_logger_preserves_good _ _ _ _ _ _ hg)

/-- Every state reachable from the empty registry is sane. -/
lemma runCalls_good (calls : List CallArgs) : GoodState (runCalls calls) :=
  runCalls_aux_good calls emptyState emptyState_good

/-- Shared helper: on an existing entry the stored lock flag after a call
is always exactly the call's `lock` argument (`info['locked'] = lock` runs
unconditionally). -/
lemma locked_after_existing_call (st : State) (n : String) (info : Info)
    (lv : Int) (uf : Bool) (d : Option OutStream) (lk : Option Bool)
    (h : st n = some info) :
    ((get_logger n lv uf d lk st).1 n).map Info.locked = some lk := by
  by_cases hc : d ≠ info.stream ∧ (pyLockTruthy info.locked = false ∨ lk = some false)
  · rw [(get_logger_existing_changed st n info lv uf d lk h hc.1 hc.2).1]
    rfl
  · rw [(get_logger_existing_blocked st n info lv uf d lk h hc).1]
    rfl

/-! ### Concrete scenario: the three-call sequence from the specification -/

/-- Registry after `get_logger("a", out_stream="stdout")` from empty. -/
def st_a1 : State := (get_logger "a" 20 false (some OutStream.stdout) none emptyState).1

/-- Registry after the further call `get_logger("a", out_stream="stderr", lock=True)`. -/
def st_a2 : State := (get_logger "a" 20 false (some OutStream.stderr) (some true) st_a1).1

/-- Registry after the further call `get_logger("a", out_stream="stdout")`
(lock absent). -/
def st_a3 : State := (get_logger "a" 20 false (some OutStream.stdout) none st_a2).1

/-- The entry of `"a"` in `st_a2`: locked, directed at stderr. -/
def infoA2 : Info :=
  ⟨⟨"a", 20, [⟨SysStream.sysStderr, 20, false⟩]⟩, some OutStream.stderr, some true⟩

/-- C1: Lock gating — on an entry whose stored lock flag is `True`, a call
with a different destination and with `lock` absent or `lock=True` leaves
the stored destination and the attached sink (the logger's handlers)
unchanged; only the stored lock flag is overwritten with the call's
`lock` argument. -/
theorem lock_gating_preserves_destination (st : State) (n : String) (info : Info)
    (lv : Int) (uf : Bool) (d : Option OutStream) (lk : Option Bool)
    (h : st n = some info) (hlocked : info.locked = some true)
    (hlk : lk ≠ some false) (_hd : d ≠ info.stream) :
    (get_logger n lv uf d lk st).1 n = some ⟨info.logger, info.stream, lk⟩ := by
  refine (get_logger_existing_blocked st n info lv uf d lk h ?_).1
  rintro ⟨-, h2 | h2⟩
  · rw [hlocked] at h2
    simp [pyLockTruthy] at h2
  · exact hlk h2

/-- C1 witness: the spec's scenario. After `get_logger("a", stdout)` then
`get_logger("a", stderr, lock=True)`, the call `get_logger("a", stdout)`
leaves the destination at stderr and the stderr sink attached. -/
theorem lock_gating_preserves_destination_witness :
    st_a2 "a" = some infoA2 ∧
    (get_logger "a" 20 false (some OutStream.stdout) none st_a2).1 "a" =
      some ⟨infoA2.logger, some OutStream.stderr, none⟩ :=
  ⟨by decide, lock_gating_preserves_destination st_a2 "a" infoA2 20 false
    (some OutStream.stdout) none (by decide) (by decide) (by decide) (by decide)⟩

/-- C2: Unlock-and-apply — a call with `lock=False` on a locked entry whose
requested destination differs detaches the previous sink, attaches a new
sink with the requested destination, level and format, stores the new
destination, and leaves the entry unlocked, all in that one call. -/
theorem unlock_and_apply (st : State) (n : String) (info : Info) (h0 : Handler)
    (lv : Int) (uf : Bool) (d : OutStream)
    (h : st n = some info) (_hlocked : info.locked = some true)
    (hh : info.logger.handlers = [h0]) (hd : some d ≠ info.stream) :
    (get_logger n lv uf (some d) (some false) st).1 n =
      some ⟨⟨info.logger.name, info.logger.level, [⟨resolveStream d, lv, uf⟩]⟩,
            some d, some false⟩ := by
  rw [(get_logger_existing_changed st n info lv uf (some d) (some false) h hd
        (Or.inr rfl)).1, hh]
  rfl

/-- C2 witness: unlocking the locked entry of the scenario while asking for
stdout swaps the stderr sink for a stdout sink and unlocks the entry. -/
theorem unlock_and_apply_witness :
    (get_logger "a" 20 false (some OutStream.stdout) (some false) st_a2).1 "a" =
      some ⟨⟨"a", 20, [⟨SysStream.sysStdout, 20, false⟩]⟩,
            some OutStream.stdout, some false⟩ :=
  unlock_and_apply st_a2 "a" infoA2 ⟨SysStream.sysStderr, 20, false⟩ 20 false
    OutStream.stdout (by decide) (by decide) (by decide) (by decide)

/-- C3 counterexample: the stored lock flag is not preserved by a call that
omits `lock`. In the scenario, the entry of `"a"` is locked (`Some true`)
after the second call, yet the third call — whose `lock` argument is
absent — overwrites the flag with the absent value (`None`). -/
theorem lock_absent_overwrites_counterexample :
    (st_a2 "a").map Info.locked = some (some true) ∧
    (st_a3 "a").map Info.locked = some none :=
  ⟨by decide, by decide⟩

/-- C3 (amended): `info['locked'] = lock` runs unconditionally, so after
any call on an existing entry the stored lock flag equals that call's
`lock` argument verbatim — a call with `lock` absent overwrites the flag
with the absent value rather than leaving it unchanged. -/
theorem lock_flag_stored_verbatim (st : State) (n : String) (info : Info)
    (lv : Int) (uf : Bool) (d : Option OutStream) (lk : Option Bool)
    (h : st n = some info) :
    ((get_logger n lv uf d lk st).1 n).map Info.locked = some lk :=
  locked_after_existing_call st n info lv uf d lk h

/-- C3 witness: a lock-absent call on the locked entry of the scenario
stores the absent value as the new flag. -/
theorem lock_flag_stored_verbatim_witness :
    ((get_logger "a" 20 false (some OutStream.stdout) none st_a2).1 "a").map
      Info.locked = some none :=
  lock_flag_stored_verbatim st_a2 "a" infoA2 20 false (some OutStream.stdout) none
    (by decide)

/-- C9: the lock flag is stored verbatim on every call on an existing entry
(including the absent value); consequently an entry locked with
`lock=True` is non-locked after a single call that omits `lock`, and a
further call requesting a different destination then does change the
destination. -/
theorem lock_verbatim_enables_later_change (st : State) (n : String) (info : Info)
    (h : st n = some info) :
    (∀ lv uf d lk, ((get_logger n lv uf d lk st).1 n).map Info.locked = some lk) ∧
    (info.locked = some true →
      ∀ lv₁ uf₁ d₁ lv₂ uf₂ d₂ lk₂, some d₂ ≠ info.stream →
        ((get_logger n lv₂ uf₂ (some d₂) lk₂
            ((get_logger n lv₁ uf₁ d₁ none st).1)).1 n).map Info.stream =
          some (some d₂)) := by
  constructor
  · intro lv uf d lk
    exact locked_after_existing_call st n info lv uf d lk h
  · intro hlocked lv₁ uf₁ d₁ lv₂ uf₂ d₂ lk₂ hd₂
    have h1 : (get_logger n lv₁ uf₁ d₁ none st).1 n =
        some ⟨info.logger, info.stream, none⟩ := by
      refine (get_logger_existing_blocked st n info lv₁ uf₁ d₁ none h ?_).1
      rintro ⟨-, h2 | h2⟩
      · rw [hlocked] at h2
        simp [pyLockTruthy] at h2
      · cases h2
    rw [(get_logger_existing_changed _ n ⟨info.logger, info.stream, none⟩ lv₂ uf₂
          (some d₂) lk₂ h1 hd₂ (Or.inl rfl)).1]
    rfl

/-- C9 witness: the scenario's locked entry, one lock-absent call, then a
redirect to stdout which now succeeds. -/
theorem lock_verbatim_enables_later_change_witness :
    ((get_logger "a" 20 false (some OutStream.stdout) (some true)
        ((get_logger "a" 20 false (some OutStream.stdout) none st_a2).1)).1 "a").map
      Info.stream = some (some OutStream.stdout) :=
  (lock_verbatim_enables_later_change st_a2 "a" infoA2 (by decide)).2 (by decide)
    20 false (some OutStream.stdout) 20 false OutStream.stdout (some true) (by decide)

/-- Shared helper: after any call, the entry for the called name exists,
its lock flag is the call's `lock` argument, the returned logger is the
entry's logger, and either the stored stream is the requested one or the
call was blocked by a truthy lock (with `lock` not `False` and a
different destination requested). -/
lemma get_logger_first (st : State) (n : String) (lv : Int) (uf : Bool)
    (d : Option OutStream) (lk : Option Bool) :
    ∃ info₁ : Info,
      (get_logger n lv uf d lk st).1 n = some info₁ ∧
      (get_logger n lv uf d lk st).2 = info₁.logger ∧
      info₁.locked = lk ∧
      (info₁.stream = d ∨
        ∃ info, st n = some info ∧ info₁ = ⟨info.logger, info.stream, lk⟩ ∧
          pyLockTruthy info.locked = true ∧ lk ≠ some false ∧ d ≠ info.stream) := by
  cases h : st n with
  | none =>
    obtain ⟨h1, h2⟩ := get_logger_new st n lv uf d lk h
    exact ⟨_, h1, h2, rfl, Or.inl rfl⟩
  | some info =>
    by_cases hd : d = info.stream
    · obtain ⟨h1, h2⟩ := get_logger_existing_blocked st n info lv uf d lk h
        (by rintro ⟨h', -⟩; exact h' hd)
      exact ⟨_, h1, h2, rfl, Or.inl hd.symm⟩
    · by_cases hu : pyLockTruthy info.locked = false ∨ lk = some false
      · obtain ⟨h1, h2⟩ := get_logger_existing_changed st n info lv uf d lk h hd hu
        exact ⟨_, h1, h2, rfl, Or.inl rfl⟩
      · push_neg at hu
        obtain ⟨h1, h2⟩ := get_logger_existing_blocked st n info lv uf d lk h
          (by rintro ⟨-, h'⟩; exact absurd h' (by push_neg; exact hu))
        refine ⟨_, h1, h2, rfl, Or.inr ⟨info, rfl, rfl, ?_, hu.2, hd⟩⟩
        cases hpt : pyLockTruthy info.locked with
        | false => exact absurd hpt hu.1
        | true => rfl

/-- The single situation in which two identical consecutive calls are not
idempotent: the entry is locked (`True`), the call's `lock` argument is
absent, and a different destination is requested — the first call is then
blocked but resets the lock, so the second call applies the change. -/
def blockedLockAbsent (st : State) (n : String) (d : Option OutStream)
    (lk : Option Bool) : Bool :=
  match st n with
  | some info => pyLockTruthy info.locked && lk.isNone && decide (d ≠ info.stream)
  | none => false

/-- C4 (amended): two consecutive `get_logger` calls with identical
arguments always return loggers with the same identity key (name); and
except in the `blockedLockAbsent` situation — a locked entry, `lock`
absent, different destination, where the first call blocks the change but
resets the lock and the second call then applies it — the second call
also leaves the registry pointwise exactly as the first left it and
returns the identical logger value. -/
theorem repeated_call_idempotent (n : String) (lv : Int) (uf : Bool)
    (d : Option OutStream) (lk : Option Bool) (st : State) :
    (get_logger n lv uf d lk ((get_logger n lv uf d lk st).1)).2.name =
      (get_logger n lv uf d lk st).2.name ∧
    (blockedLockAbsent st n d lk = false →
      (∀ m, (get_logger n lv uf d lk ((get_logger n lv uf d lk st).1)).1 m =
         (get_logger n lv uf d lk st).1 m) ∧
      (get_logger n lv uf d lk ((get_logger n lv uf d lk st).1)).2 =
        (get_logger n lv uf d lk st).2) := by
  obtain ⟨i₁, h1, h2, hlk1, hcase⟩ := get_logger_first st n lv uf d lk
  constructor
  · by_cases hc2 : d ≠ i₁.stream ∧ (pyLockTruthy i₁.locked = false ∨ lk = some false)
    · rw [(get_logger_existing_changed _ n i₁ lv uf d lk h1 hc2.1 hc2.2).2, h2]
    · rw [(get_logger_existing_blocked _ n i₁ lv uf d lk h1 hc2).2, h2]
  · intro hno
    have hblock2 : ¬(d ≠ i₁.stream ∧ (pyLockTruthy i₁.locked = false ∨ lk = some false)) := by
      rcases hcase with hstream | ⟨info, hinfo, hi₁, htruthy, hlkf, hdne⟩
      · rintro ⟨h', -⟩
        exact h' hstream.symm
      · have hlknone : lk ≠ none := by
          intro hln
          subst hln
          unfold blockedLockAbsent at hno
          rw [hinfo] at hno
          simp [htruthy, hdne] at hno
        have hlktrue : lk = some true := by
          cases lk with
          | none => exact absurd rfl hlknone
          | some b =>
            cases b with
            | false => exact absurd rfl hlkf
            | true => rfl
        rintro ⟨-, h' | h'⟩
        · rw [hi₁] at h'
          simp only [hlktrue] at h'
          simp [pyLockTruthy] at h'
        · exact hlkf h'
    obtain ⟨g1, g2⟩ := get_logger_existing_blocked _ n i₁ lv uf d lk h1 hblock2
    have heq : (⟨i₁.logger, i₁.stream, lk⟩ : Info) = i₁ := by
      rw [← hlk1]
    refine ⟨?_, by rw [g2, h2]⟩
    intro m
    by_cases hm : m = n
    · subst hm
      rw [g1, heq, h1]
    · rw [get_logger_frame _ n m hm lv uf d lk]

/-- C4 counterexample: the claim's state part fails. On the locked entry of
the scenario, two identical calls `get_logger("a", out_stream="stdout")`
(lock absent) leave different stored destinations: after the first call the
destination is still stderr (blocked, but the lock flag was reset), after
the identical second call it is stdout. -/
theorem repeated_call_not_idempotent :
    (st_a3 "a").map Info.stream = some (some OutStream.stderr) ∧
    (((get_logger "a" 20 false (some OutStream.stdout) none st_a3).1 "a").map
       Info.stream) = some (some OutStream.stdout) :=
  ⟨by decide, by decide⟩

/-- C4 witness: repeating `get_logger("a", stderr, lock=True)` on a registry
holding an unlocked `"a"` entry returns the same-named handle twice and is
idempotent — the second call returns the identical logger and leaves the
registry pointwise as the first left it. -/
theorem repeated_call_idempotent_witness :
    ((get_logger "a" 20 false (some OutStream.stderr) (some true)
        ((get_logger "a" 20 false (some OutStream.stderr) (some true) st_a1).1)).2.name =
      (get_logger "a" 20 false (some OutStream.stderr) (some true) st_a1).2.name) ∧
    ((∀ m, (get_logger "a" 20 false (some OutStream.stderr) (some true)
        ((get_logger "a" 20 false (some OutStream.stderr) (some true) st_a1).1)).1 m =
       (get_logger "a" 20 false (some OutStream.stderr) (some true) st_a1).1 m) ∧
     (get_logger "a" 20 false (some OutStream.stderr) (some true)
        ((get_logger "a" 20 false (some OutStream.stderr) (some true) st_a1).1)).2 =
       (get_logger "a" 20 false (some OutStream.stderr) (some true) st_a1).2) :=
  ⟨(repeated_call_idempotent "a" 20 false (some OutStream.stderr) (some true) st_a1).1,
   (repeated_call_idempotent "a" 20 false (some OutStream.stderr) (some true) st_a1).2
     (by decide)⟩

/-- C5: after every finite sequence of `get_logger` calls starting from the
empty registry, every entry's logger carries at most one attached handler
(each destination change first runs the removal loop over the current
handlers, which empties a list of at most one handler, before attaching at
most one new handler). At most one entry per name holds structurally: the
registry is a mapping from names to at most one `Info`. -/
theorem registry_single_sink_invariant (calls : List CallArgs) (n : String)
    (info : Info) (h : runCalls calls n = some info) :
    info.logger.handlers.length ≤ 1 :=
  (runCalls_good calls n info h).2

/-- C5 witness: a concrete two-call sequence that swaps the destination of
`"a"`; the surviving entry holds exactly one handler. -/
theorem registry_single_sink_invariant_witness :
    runCalls [⟨"a", 20, false, some OutStream.stdout, none⟩,
              ⟨"a", 30, true, some OutStream.stderr, none⟩] "a" =
      some ⟨⟨"a", 20, [⟨SysStream.sysStderr, 30, true⟩]⟩, some OutStream.stderr, none⟩ ∧
    (⟨⟨"a", 20, [⟨SysStream.sysStderr, 30, true⟩]⟩, some OutStream.stderr,
       none⟩ : Info).logger.handlers.length ≤ 1 :=
  ⟨by decide,
   registry_single_sink_invariant
     [⟨"a", 20, false, some OutStream.stdout, none⟩,
      ⟨"a", 30, true, some OutStream.stderr, none⟩] "a"
     ⟨⟨"a", 20, [⟨SysStream.sysStderr, 30, true⟩]⟩, some OutStream.stderr, none⟩
     (by decide)⟩

/-- C6: a first call for a name with `out_stream` absent creates the entry
with no attached sink; a later call supplying a destination, while the
stored lock flag is not truthy, attaches a sink for that destination
(the embedding is a total function, so no error is raised). -/
theorem absent_destination_lifecycle (n : String) (lv₁ : Int) (uf₁ : Bool)
    (lk₁ : Option Bool) (st : State) (h : st n = none)
    (hlk : pyLockTruthy lk₁ = false) (lv₂ : Int) (uf₂ : Bool) (d : OutStream)
    (lk₂ : Option Bool) :
    (((get_logger n lv₁ uf₁ none lk₁ st).1 n).map fun i => i.logger.handlers) =
      some [] ∧
    (get_logger n lv₂ uf₂ (some d) lk₂ ((get_logger n lv₁ uf₁ none lk₁ st).1)).1 n =
      some ⟨⟨n, lv₁, [⟨resolveStream d, lv₂, uf₂⟩]⟩, some d, lk₂⟩ := by
  have h1 := (get_logger_new st n lv₁ uf₁ none lk₁ h).1
  constructor
  · rw [h1]
    rfl
  · rw [(get_logger_existing_changed _ n ⟨⟨n, lv₁, []⟩, none, lk₁⟩ lv₂ uf₂
          (some d) lk₂ h1 (by simp) (Or.inl hlk)).1]
    rfl

/-- C6 witness: name `"b"` created with no destination and an arbitrary
level, then directed at a custom file-like stream. -/
theorem absent_destination_lifecycle_witness :
    (((get_logger "b" 42 false none none emptyState).1 "b").map
       fun i => i.logger.handlers) = some [] ∧
    (get_logger "b" 10 true (some (OutStream.custom 7)) none
       ((get_logger "b" 42 false none none emptyState).1)).1 "b" =
      some ⟨⟨"b", 42, [⟨SysStream.customStream 7, 10, true⟩]⟩,
            some (OutStream.custom 7), none⟩ :=
  absent_destination_lifecycle "b" 42 false none emptyState (by decide) (by decide)
    10 true (OutStream.custom 7) none

/-- C7: per-name isolation — a call on one name never changes any other
name's entry, and in any registry reachable from empty, two distinct names
hold distinct entries: their loggers are distinct objects because their
identity keys differ. -/
theorem per_name_isolation (n m : String) (hnm : n ≠ m) :
    (∀ lv uf d lk st, (get_logger n lv uf d lk st).1 m = st m) ∧
    (∀ calls i j, runCalls calls n = some i → runCalls calls m = some j →
      i.logger ≠ j.logger) := by
  constructor
  · intro lv uf d lk st
    exact get_logger_frame st n m (Ne.symm hnm) lv uf d lk
  · intro calls i j hi hj hij
    have h1 := (runCalls_good calls n i hi).1
    have h2 := (runCalls_good calls m j hj).1
    rw [hij] at h1
    rw [h1] at h2
    exact hnm h2

/-- C7 witness: a call on `"a"` leaves the (absent) entry of `"b"` exactly
as it was in the scenario registry. -/
theorem per_name_isolation_witness :
    (get_logger "a" 20 false (some OutStream.stdout) none st_a2).1 "b" = st_a2 "b" :=
  (per_name_isolation "a" "b" (by decide)).1 20 false (some OutStream.stdout) none st_a2

/-- C8: no registry-time errors — `get_logger` is a total function of every
input (arbitrary integer level, arbitrary name, arbitrary or absent
destination object, any lock value): it always completes, always leaves an
entry for the requested name, and always returns that entry's logger. The
source performs no validation and contains no raise; failures of a bad
destination can only surface later from the underlying logging primitive
at emission time, which is outside the registry. -/
theorem no_registry_errors (n : String) (lv : Int) (uf : Bool)
    (d : Option OutStream) (lk : Option Bool) (st : State) :
    ((get_logger n lv uf d lk st).1 n).isSome = true ∧
    ((get_logger n lv uf d lk st).1 n).map Info.logger =
      some (get_logger n lv uf d lk st).2 := by
  refine ⟨?_, get_logger_returns_entry_logger st n lv uf d lk⟩
  obtain ⟨i₁, h1, -⟩ := get_logger_first st n lv uf d lk
  rw [h1]
  rfl

/-- C10: the logger's own severity threshold is set only by the creating
call — every call on an existing entry leaves `logger.level` unchanged,
and when a destination change applies, the requested level is set only on
the newly attached handler. -/
theorem logger_level_fixed_at_creation (st : State) (n : String) (info : Info)
    (lv : Int) (uf : Bool) (d : Option OutStream) (lk : Option Bool)
    (h : st n = some info) :
    (((get_logger n lv uf d lk st).1 n).map fun i => i.logger.level) =
      some info.logger.level ∧
    (∀ s, d = some s →
      (d ≠ info.stream ∧ (pyLockTruthy info.locked = false ∨ lk = some false)) →
      (((get_logger n lv uf d lk st).1 n).map fun i => i.logger.handlers) =
        some (removeHandlersLoop info.logger.handlers ++
              [⟨resolveStream s, lv, uf⟩])) := by
  constructor
  · by_cases hc : d ≠ info.stream ∧ (pyLockTruthy info.locked = false ∨ lk = some false)
    · rw [(get_logger_existing_changed st n info lv uf d lk h hc.1 hc.2).1]
      rfl
    · rw [(get_logger_existing_blocked st n info lv uf d lk h hc).1]
      rfl
  · rintro s rfl hc
    rw [(get_logger_existing_changed st n info lv uf (some s) lk h hc.1 hc.2).1]
    rfl

/-- C10 witness: redirecting `"a"` to stderr with level 99 leaves the
logger's own threshold at its creation value 20 and puts level 99 only on
the new handler. -/
theorem logger_level_fixed_at_creation_witness :
    ((((get_logger "a" 99 true (some OutStream.stderr) none st_a1).1 "a").map
        fun i => i.logger.level) = some 20) ∧
    ((((get_logger "a" 99 true (some OutStream.stderr) none st_a1).1 "a").map
        fun i => i.logger.handlers) = some [⟨SysStream.sysStderr, 99, true⟩]) :=
  ⟨(logger_level_fixed_at_creation st_a1 "a"
      ⟨⟨"a", 20, [⟨SysStream.sysStdout, 20, false⟩]⟩, some OutStream.stdout, none⟩
      99 true (some OutStream.stderr) none (by decide)).1,
   (logger_level_fixed_at_creation st_a1 "a"
      ⟨⟨"a", 20, [⟨SysStream.sysStdout, 20, false⟩]⟩, some OutStream.stdout, none⟩
      99 true (some OutStream.stderr) none (by decide)).2 OutStream.stderr rfl
      ⟨by decide, Or.inl (by decide)⟩⟩
